import Mathlib

/-!
Verification development for the music-db import/enrichment engine.

Shallow embedding of the backend services:
  * `app/services/album.py`       — get-or-create entity stores, update path
  * `app/services/flac_import.py` — filesystem importer job loop, upsert branch
  * `app/services/roon.py`        — external-library importer upsert branch
  * `app/services/enrichment.py`  — merge functions and `enrich_album`
  * `app/api/routes/flac_import.py`, `app/api/routes/enrichment.py` — start routes

Python truthiness is modelled explicitly: the source guards fields with
`if value and not existing.field`, which treats `0`, `""`, `None` and empty
collections alike as absent.
-/

namespace MusicDb

/-- Python's `str.lower()`, character by character (the merge keys are plain
names, for which per-character lowercasing coincides with Python). -/
def pyLower (s : String) : String := String.mk (s.data.map Char.toLower)

/-- Python's `str.strip()`: drop leading and trailing whitespace. -/
def pyStrip (s : String) : String :=
  String.mk (((s.data.dropWhile Char.isWhitespace).reverse.dropWhile Char.isWhitespace).reverse)

/-- Python truthiness of an optional integer: `None` and `0` are falsy. -/
def intTruthy : Option Int → Bool
  | none => false
  | some n => n ≠ 0

/-- Python truthiness of an optional natural (e.g. a row id): `None` and `0` are falsy. -/
def natTruthy : Option Nat → Bool
  | none => false
  | some n => n ≠ 0

/-- Python truthiness of an optional string: `None` and `""` are falsy. -/
def strTruthy : Option String → Bool
  | none => false
  | some s => s ≠ ""

/-- Python truthiness of optional image bytes: `None` and `b""` are falsy. -/
def bytesTruthy : Option (List Nat) → Bool
  | none => false
  | some bs => bs ≠ []

/-! ## Linked-entity stores and get-or-create (`app/services/album.py`)

Each store is the table's rows in insertion order; `nextId` models the
autoincrement counter. The SQL lookup `Entity.name == name` compares with the
column's default BINARY collation, i.e. case-sensitively. -/

/-- A row of the `musicians` table. -/
structure Musician where
  id : Nat
  name : String
  deriving DecidableEq, Repr

/-- A row of the `persons` table. -/
structure Person where
  id : Nat
  name : String
  deriving DecidableEq, Repr

/-- A row of the `details` table. -/
structure Detail where
  id : Nat
  name : String
  deriving DecidableEq, Repr

/-- A row of the `record_labels` table. -/
structure RecordLabel where
  id : Nat
  name : String
  deriving DecidableEq, Repr

/-- `get_or_create_musician` (album.py:15-22): exact-equality lookup on `name`;
on miss, insert a fresh row. -/
def get_or_create_musician (store : List Musician) (nextId : Nat) (name : String) :
    Musician × List Musician × Nat :=
  match store.find? (fun m => m.name == name) with
  | some m => (m, store, nextId)
  | none => (⟨nextId, name⟩, store ++ [⟨nextId, name⟩], nextId + 1)

/-- `get_or_create_person` (album.py:81-88): exact-equality lookup on `name`;
on miss, insert a fresh row. -/
def get_or_create_person (store : List Person) (nextId : Nat) (name : String) :
    Person × List Person × Nat :=
  match store.find? (fun p => p.name == name) with
  | some p => (p, store, nextId)
  | none => (⟨nextId, name⟩, store ++ [⟨nextId, name⟩], nextId + 1)

/-- `get_or_create_detail` (album.py:91-98): exact-equality lookup on `name`;
on miss, insert a fresh row. -/
def get_or_create_detail (store : List Detail) (nextId : Nat) (name : String) :
    Detail × List Detail × Nat :=
  match store.find? (fun d => d.name == name) with
  | some d => (d, store, nextId)
  | none => (⟨nextId, name⟩, store ++ [⟨nextId, name⟩], nextId + 1)

/-- `get_or_create_record_label` (album.py:25-32): exact-equality lookup on `name`;
on miss, insert a fresh row. -/
def get_or_create_record_label (store : List RecordLabel) (nextId : Nat) (name : String) :
    RecordLabel × List RecordLabel × Nat :=
  match store.find? (fun r => r.name == name) with
  | some r => (r, store, nextId)
  | none => (⟨nextId, name⟩, store ++ [⟨nextId, name⟩], nextId + 1)

/-! ## Album upsert, existing-album branch (flac_import.py:303-319, roon.py:422-433) -/

/-- The columns of an `albums` row touched by the importers. -/
structure AlbumRow where
  id : Nat
  title : String
  artist : String
  release_year : Option Int
  record_label_id : Option Nat
  art_path : Option String
  tracks : List String
  deriving DecidableEq, Repr

/-- An album unit scanned from a directory (`_scan_album_dir` result). -/
structure UnitData where
  title : String
  artist : String
  release_year : Option Int
  record_label : Option String
  tracks : List String
  image_bytes : Option (List Nat)
  deriving DecidableEq, Repr

/-- The existing-album update branch of the filesystem importer
(flac_import.py:303-319): tracks are replaced unconditionally; release year,
record label and art are assigned only when the incoming value is truthy and
the stored value is falsy (Python `if data[k] and not existing.k`). -/
def flac_update_existing (labels : List RecordLabel) (nextLabelId : Nat)
    (ex : AlbumRow) (d : UnitData) : AlbumRow × List RecordLabel × Nat :=
  let ex1 := { ex with tracks := d.tracks }
  let ex2 :=
    if intTruthy d.release_year && !intTruthy ex1.release_year then
      { ex1 with release_year := d.release_year }
    else ex1
  let step :=
    if strTruthy d.record_label && !natTruthy ex2.record_label_id then
      let r := get_or_create_record_label labels nextLabelId (d.record_label.getD "")
      ({ ex2 with record_label_id := some r.1.id }, r.2.1, r.2.2)
    else (ex2, labels, nextLabelId)
  let ex3 := step.1
  let ex4 :=
    if bytesTruthy d.image_bytes && !strTruthy ex3.art_path then
      { ex3 with art_path := some (toString ex3.id ++ ".jpg") }
    else ex3
  (ex4, step.2.1, step.2.2)

/-- The existing-album update branch of the external-library importer
(roon.py:422-433): tracks are replaced unconditionally; art is filled only
when image bytes are truthy and the stored path is falsy. -/
def roon_update_existing (ex : AlbumRow) (tracks : List String)
    (image_bytes : Option (List Nat)) : AlbumRow :=
  let ex1 := { ex with tracks := tracks }
  if bytesTruthy image_bytes && !strTruthy ex1.art_path then
    { ex1 with art_path := some (toString ex1.id ++ ".jpg") }
  else ex1

/-! ## Enrichment merge functions (`enrichment.py:196-241`) -/

/-- A `{"musician_name": ..., "instrument": ...}` dict. -/
structure MusEntry where
  musician_name : String
  instrument : String
  deriving DecidableEq, Repr

/-- A `{"person_name": ..., "role": ...}` dict. -/
structure PersEntry where
  person_name : String
  role : String
  deriving DecidableEq, Repr

/-- A `{"detail_name": ..., "detail_type": ...}` dict. -/
structure DetEntry where
  detail_name : String
  detail_type : String
  deriving DecidableEq, Repr

/-- The shared append loop of the three merge functions: walk `new`, skipping
entries whose key is in `seen`, and record each appended entry's key. -/
def mergeKept {α κ : Type} [DecidableEq κ] (key : α → κ) (seen : List κ) :
    List α → List α
  | [] => []
  | x :: rest =>
    if key x ∈ seen then mergeKept key seen rest
    else x :: mergeKept key (key x :: seen) rest

/-- Dedup key of a musician entry: case-insensitive name only. -/
def musKey (m : MusEntry) : String := pyLower m.musician_name

/-- Dedup key of a personnel entry: case-insensitive (name, role) pair. -/
def persKey (p : PersEntry) : String × String := (pyLower p.person_name, pyLower p.role)

/-- Dedup key of a detail entry: case-insensitive (name, type) pair. -/
def detKey (d : DetEntry) : String × String := (pyLower d.detail_name, pyLower d.detail_type)

/-- `_merge_musicians` (enrichment.py:196-211): `merged = list(existing)`, then
append each new entry whose lowercased name is not yet seen. -/
def _merge_musicians (existing new : List MusEntry) : List MusEntry :=
  existing ++ mergeKept musKey (existing.map musKey) new

/-- `_merge_personnel` (enrichment.py:214-226): append each new entry whose
lowercased (person_name, role) pair is not yet seen. -/
def _merge_personnel (existing new : List PersEntry) : List PersEntry :=
  existing ++ mergeKept persKey (existing.map persKey) new

/-- `_merge_details` (enrichment.py:229-241): append each new entry whose
lowercased (detail_name, detail_type) pair is not yet seen. -/
def _merge_details (existing new : List DetEntry) : List DetEntry :=
  existing ++ mergeKept detKey (existing.map detKey) new

/-! ## `enrich_album` (`enrichment.py:244-305`) -/

/-- The album as loaded by `get_album_full`: producer plus the three link lists
(with the linked entity names resolved). -/
structure AlbumFull where
  producer : Option String
  musicians : List MusEntry
  personnel : List PersEntry
  details : List DetEntry
  deriving DecidableEq, Repr

/-- The structured tool output returned by the language-model call. `none` for
`producer` models a missing key; `some ""` models the explicit empty string. -/
structure EnrichPayload where
  producer : Option String
  musicians : List MusEntry
  personnel : List PersEntry
  other_details : List DetEntry
  deriving DecidableEq, Repr

/-- `enrich_album` (enrichment.py:244-305): `album = None` and an empty/falsy
raw payload return `false` without changes; otherwise the merged update is
applied via `update_album` and `true` is returned unconditionally.

The producer field of the update is
`(raw.get("producer") or None) if not album.producer else None`, and
`update_album` (album.py:187-188) assigns producer only when the schema value
is not `None`. -/
def enrich_album (album : Option AlbumFull) (raw : Option EnrichPayload) :
    Option AlbumFull × Bool :=
  match album with
  | none => (none, false)
  | some a =>
    match raw with
    | none => (some a, false)
    | some r =>
      let mm := _merge_musicians a.musicians r.musicians
      let mp := _merge_personnel a.personnel r.personnel
      let md := _merge_details a.details r.other_details
      let updProducer : Option String :=
        if !strTruthy a.producer then
          (if strTruthy r.producer then r.producer else none)
        else none
      let a1 : AlbumFull :=
        { producer := match updProducer with | none => a.producer | some p => some p
          musicians := mm
          personnel := mp
          details := md }
      (some a1, true)

/-- Project the stored producer out of an optional album row. -/
def producerOf : Option AlbumFull → Option String
  | none => none
  | some a => a.producer

/-! ## MusicBrainz art-fallback rate limiter
(flac_import.py:61-62, 234-239 and roon.py:40-41, 312-322)

Each module holds its own `_last_mb_request` global; `_mb_art_fallback` sleeps
`_MB_MIN_INTERVAL - elapsed` when the elapsed time since that module's last
request is below the minimum, then stamps the (monotonic) issue time. -/

/-- `_MB_MIN_INTERVAL = 1.1` seconds. -/
def _MB_MIN_INTERVAL : ℚ := 11 / 10

/-- Sleep duration computed by the rate-limit check given the module's last
request timestamp and the current monotonic time. -/
def mbSleep (last now : ℚ) : ℚ :=
  if now - last < _MB_MIN_INTERVAL then _MB_MIN_INTERVAL - (now - last) else 0

/-- The monotonic time at which the search is actually issued (and which is
stored back into the module's `_last_mb_request`). -/
def mbIssueTime (last now : ℚ) : ℚ := now + mbSleep last now

/-- The two module-level `_last_mb_request` globals: one in
`app/services/flac_import.py`, one in `app/services/roon.py`. -/
structure MbState where
  flacLast : ℚ
  roonLast : ℚ
  deriving DecidableEq, Repr

/-- A MusicBrainz search issued by the filesystem importer's `_mb_art_fallback`:
consults and updates only `flac_import._last_mb_request`. Returns the new
state and the time the search was issued. -/
def flacSearch (s : MbState) (now : ℚ) : MbState × ℚ :=
  let t := mbIssueTime s.flacLast now
  ({ s with flacLast := t }, t)

/-- A MusicBrainz search issued by the external-library importer's
`_mb_art_fallback`: consults and updates only `roon._last_mb_request`. -/
def roonSearch (s : MbState) (now : ℚ) : MbState × ℚ :=
  let t := mbIssueTime s.roonLast now
  ({ s with roonLast := t }, t)

/-! ## Import job state and per-unit loop (`flac_import.py:47-398`) -/

/-- The `status` field of the `_import_job` dict. -/
inductive JobStatus where
  | idle
  | starting
  | running
  | done
  | cancelled
  | error
  deriving DecidableEq, Repr

/-- The observable outcome of processing one discovered unit: created a new
album, updated an existing one, skipped (no scannable data), or raised inside
the per-unit `try`. `imported`/`updated` carry the album id whose database
row was written, standing for the unit's applied side effects. -/
inductive UnitOutcome where
  | importedUnit (albumId : Nat)
  | updatedUnit (albumId : Nat)
  | skippedUnit
  | erroredUnit (msg : String)
  deriving DecidableEq, Repr

/-- The `_import_job` progress dict, plus `applied`: the ids of album rows
written so far, recording the per-unit database effects in order. -/
structure JobState where
  status : JobStatus
  total : Nat
  done : Nat
  imported : Nat
  updated : Nat
  skipped : Nat
  errors : Nat
  errorList : List String
  collectionId : Option Nat
  rootPath : Option String
  cancelRequested : Bool
  applied : List Nat
  deriving DecidableEq, Repr

/-- The bounded error-log append (flac_import.py:356-358, roon.py:466-468):
when the list already holds 50 or more entries it is first truncated to its
last 49 (`error_list[-49:]`), then the new message is appended. -/
def trimAppend (l : List String) (msg : String) : List String :=
  (if l.length ≥ 50 then l.drop (l.length - 49) else l) ++ [msg]

/-- The error-message list a job holds after the given per-unit failure
messages, in order, starting from an empty list. -/
def errLog (msgs : List String) : List String := msgs.foldl trimAppend []

/-- One iteration of the per-unit loop body (flac_import.py:279-361): the
outcome-specific counter is bumped (with the bounded error append on failure,
and the database write recorded in `applied`), then the `finally` block bumps
`done`. -/
def processUnit (j : JobState) (u : UnitOutcome) : JobState :=
  let j1 :=
    match u with
    | .importedUnit aid => { j with imported := j.imported + 1, applied := j.applied ++ [aid] }
    | .updatedUnit aid => { j with updated := j.updated + 1, applied := j.applied ++ [aid] }
    | .skippedUnit => { j with skipped := j.skipped + 1 }
    | .erroredUnit msg =>
        { j with errors := j.errors + 1, errorList := trimAppend j.errorList msg }
  { j1 with done := j1.done + 1 }

/-- Whether the `cancel_requested` flag is visible at a top-of-loop check.
`cancelAfter = some c` means `cancel_import` was called right after the c-th
unit completed, so every check from `done = c` onwards observes the flag. -/
def cancelObserved (cancelAfter : Option Nat) (done : Nat) : Bool :=
  match cancelAfter with
  | none => false
  | some c => c ≤ done

/-- Phase 2 of `run_import` (flac_import.py:272-363): for each unit the flag is
checked at the top of the loop (if set, status becomes `cancelled` and the
coroutine returns at once, leaving every other field untouched); otherwise the
unit body runs. After the last unit the status becomes `done`. -/
def runUnits (cancelAfter : Option Nat) (j : JobState) : List UnitOutcome → JobState
  | [] => { j with status := .done }
  | u :: rest =>
    if cancelObserved cancelAfter j.done then { j with status := .cancelled }
    else runUnits cancelAfter (processUnit j u) rest

/-- `reset_import_job` (flac_import.py:376-390): the whole `_import_job` dict is
replaced by a fresh record in status `starting`. -/
def reset_import_job (rootPath : String) (collectionId : Option Nat) : JobState :=
  { status := .starting
    total := 0
    done := 0
    imported := 0
    updated := 0
    skipped := 0
    errors := 0
    errorList := []
    collectionId := collectionId
    rootPath := some rootPath
    cancelRequested := false
    applied := [] }

/-- The job state at the top of phase 2, after `run_import` has set
`status = "running"` and `total = len(album_dirs)` (flac_import.py:264-268). -/
def startedJob (rootPath : String) (collectionId : Option Nat) (total : Nat) : JobState :=
  { reset_import_job rootPath collectionId with status := .running, total := total }

/-! ## Start routes (`api/routes/flac_import.py:27-75`, `api/routes/enrichment.py:21-40`) -/

/-- The HTTP response of a start endpoint: 202 accepted, 409 conflict,
400 bad request, or 404 not found. -/
inductive StartResp where
  | accepted
  | conflict
  | badRequest
  | notFound
  deriving DecidableEq, Repr

/-- `start_import` (api/routes/flac_import.py:27-75), in source order: a blank
`root_path` is rejected 400; then status `"running"` is rejected 409; then a
supplied-but-missing collection is rejected 404; otherwise `reset_import_job`
replaces the progress record and the background task is scheduled. The
returned state is the progress record after the route returns. -/
def flac_start_route (rootPath : String) (cur : JobState) (collectionOk : Bool)
    (collectionId : Option Nat) : StartResp × JobState :=
  if pyStrip rootPath = "" then (.badRequest, cur)
  else if cur.status = .running then (.conflict, cur)
  else if !collectionOk then (.notFound, cur)
  else (.accepted, reset_import_job (pyStrip rootPath) collectionId)

/-- The single-album `enrich_album` route (api/routes/enrichment.py:21-40):
status `"running"` is rejected 409; otherwise the background task is
scheduled and the request is accepted. -/
def enrich_start_route (curStatus : JobStatus) : StartResp :=
  if curStatus = .running then .conflict else .accepted

/-- The root-path check at the top of `run_import` (flac_import.py:214-217),
reached asynchronously after the route already accepted: when the path is not
a directory the job transitions to `error` and a message is appended; no unit
is processed. When the path is fine the job proceeds (not modelled here). -/
def run_import_path_check (isDir : Bool) (rootPath : String) (j : JobState) : JobState :=
  if isDir then j
  else { j with
    status := .error
    errorList := j.errorList ++ ["Directory not found or not accessible: " ++ rootPath] }

/-! ## C2 — producer preservation under enrichment -/

/-- C2 (counterexample): the claim "for every album whose producer field is
already non-null, enrichment leaves the stored producer unchanged" fails on
the code: a stored producer `some ""` is non-null, yet Python's
`if not album.producer` treats it as absent, so an enrichment result `"Y"`
overwrites it. -/
theorem c2_counterexample :
    (some "" : Option String) ≠ none ∧
      producerOf (enrich_album (some ⟨some "", [], [], []⟩)
        (some ⟨some "Y", [], [], []⟩)).1 = some "Y" := by
  constructor
  · simp
  · rfl

/-- C2 (amended): for every album whose stored producer is truthy (non-null
and non-empty), enrichment leaves the stored producer unchanged regardless of
the language-model result; only a null or empty stored producer can be set. -/
theorem c2_producer_preserved (a : AlbumFull) (raw : Option EnrichPayload)
    (h : strTruthy a.producer = true) :
    producerOf (enrich_album (some a) raw).1 = a.producer := by
  cases raw with
  | none => rfl
  | some r => simp [enrich_album, producerOf, h]

/-- C2 (witness): concrete run of `c2_producer_preserved` — producer `"X"`
survives an enrichment result `"Y"`. -/
theorem c2_witness :
    producerOf (enrich_album (some ⟨some "X", [], [], []⟩)
      (some ⟨some "Y", [], [], []⟩)).1 = some "X" :=
  c2_producer_preserved ⟨some "X", [], [], []⟩ (some ⟨some "Y", [], [], []⟩) (by decide)

/-! ## C3 — `enrich_album` return value -/

/-- C3 (counterexample): the claim "enrich returns true iff some field
actually changed" fails: for an album with producer already set and no links,
and a non-empty language-model result whose lists are empty, nothing changes
(the resulting album equals the input), yet `enrich_album` returns `true`. -/
theorem c3_counterexample :
    enrich_album (some ⟨some "X", [], [], []⟩) (some ⟨some "Y", [], [], []⟩)
      = (some ⟨some "X", [], [], []⟩, true) := by
  rfl

/-- C3 (amended): `enrich_album` returns `true` whenever the album is found
and the language-model call yields a non-empty (truthy) result — whether or
not any field changed — and returns `false` exactly when the album is missing
or the result is empty. -/
theorem c3_returns_true_iff_nonempty (a : AlbumFull) (r : EnrichPayload)
    (oa : Option AlbumFull) (or' : Option EnrichPayload) :
    (enrich_album (some a) (some r)).2 = true ∧
      (enrich_album oa none).2 = false ∧
      (enrich_album none or').2 = false := by
  refine ⟨rfl, ?_, rfl⟩
  cases oa <;> rfl

/-! ## C4 — get-or-create deduplication key -/

/-- C4 (counterexample): the claim "the global deduplication key for linked
entities is the case-insensitive name" fails for all three stores: with
`"John"` present, get-or-create on `"john"` (equal up to case) creates a
second entity instead of returning the existing one. -/
theorem c4_counterexample :
    pyLower "John" = pyLower "john" ∧
      get_or_create_musician [⟨1, "John"⟩] 2 "john"
        = (⟨2, "john"⟩, [⟨1, "John"⟩, ⟨2, "john"⟩], 3) ∧
      get_or_create_person [⟨1, "John"⟩] 2 "john"
        = (⟨2, "john"⟩, [⟨1, "John"⟩, ⟨2, "john"⟩], 3) ∧
      get_or_create_detail [⟨1, "John"⟩] 2 "john"
        = (⟨2, "john"⟩, [⟨1, "John"⟩, ⟨2, "john"⟩], 3) := by
  refine ⟨by decide, ?_, ?_, ?_⟩ <;> rfl

/-- C4 (amended): the deduplication key of the musician/person/detail
get-or-create operations is the case-SENSITIVE exact name: an exact match
returns the existing entity and leaves the store unchanged, and only the
absence of an exact match creates a new entity. -/
theorem c4_get_or_create_exact (nid : Nat) (nm : String) :
    (∀ (ms : List Musician) (m : Musician),
        ms.find? (fun x => x.name == nm) = some m →
        get_or_create_musician ms nid nm = (m, ms, nid)) ∧
    (∀ ms : List Musician, ms.find? (fun x => x.name == nm) = none →
        get_or_create_musician ms nid nm = (⟨nid, nm⟩, ms ++ [⟨nid, nm⟩], nid + 1)) ∧
    (∀ (ps : List Person) (p : Person),
        ps.find? (fun x => x.name == nm) = some p →
        get_or_create_person ps nid nm = (p, ps, nid)) ∧
    (∀ ps : List Person, ps.find? (fun x => x.name == nm) = none →
        get_or_create_person ps nid nm = (⟨nid, nm⟩, ps ++ [⟨nid, nm⟩], nid + 1)) ∧
    (∀ (ds : List Detail) (d : Detail),
        ds.find? (fun x => x.name == nm) = some d →
        get_or_create_detail ds nid nm = (d, ds, nid)) ∧
    (∀ ds : List Detail, ds.find? (fun x => x.name == nm) = none →
        get_or_create_detail ds nid nm = (⟨nid, nm⟩, ds ++ [⟨nid, nm⟩], nid + 1)) := by
  refine ⟨?_, ?_, ?_, ?_, ?_, ?_⟩
  · intro ms m h; simp [get_or_create_musician, h]
  · intro ms h; simp [get_or_create_musician, h]
  · intro ps p h; simp [get_or_create_person, h]
  · intro ps h; simp [get_or_create_person, h]
  · intro ds d h; simp [get_or_create_detail, h]
  · intro ds h; simp [get_or_create_detail, h]

/-- C4 (witness): concrete run of `c4_get_or_create_exact` — an exact-name
match returns the stored musician row unchanged. -/
theorem c4_witness :
    get_or_create_musician [⟨1, "John"⟩] 5 "John" = (⟨1, "John"⟩, [⟨1, "John"⟩], 5) :=
  (c4_get_or_create_exact 5 "John").1 [⟨1, "John"⟩] ⟨1, "John"⟩ (by rfl)

/-! ## C5 — MusicBrainz rate limiting -/

/-- C5 (counterexample): the claim that all art-fallback searches serialize
through a single shared timestamp fails: the two importer modules each hold
their own `_last_mb_request`. Starting from both timestamps at 0, a
filesystem-importer search at t = 100 and an external-library-importer search
at t = 100.5 are issued 0.5 s apart — below the 1.1 s minimum — because the
second module's check consults only its own stale timestamp. -/
theorem c5_counterexample :
    (flacSearch ⟨0, 0⟩ 100).2 = 100 ∧
      (roonSearch (flacSearch ⟨0, 0⟩ 100).1 (201 / 2)).2 = 201 / 2 ∧
      0 ≤ (roonSearch (flacSearch ⟨0, 0⟩ 100).1 (201 / 2)).2 - (flacSearch ⟨0, 0⟩ 100).2 ∧
      (roonSearch (flacSearch ⟨0, 0⟩ 100).1 (201 / 2)).2 - (flacSearch ⟨0, 0⟩ 100).2
        < _MB_MIN_INTERVAL := by
  refine ⟨?_, ?_, ?_, ?_⟩ <;>
    norm_num [flacSearch, roonSearch, mbIssueTime, mbSleep, _MB_MIN_INTERVAL]

/-- C5 (amended): the 1.1 s minimum interval is enforced per importer module,
not process-wide: each module's search is issued at least `_MB_MIN_INTERVAL`
after that same module's previous timestamp, and a search from one module
leaves the other module's timestamp untouched. -/
theorem c5_per_module_interval (s : MbState) (now : ℚ) :
    _MB_MIN_INTERVAL ≤ (flacSearch s now).2 - s.flacLast ∧
      (flacSearch s now).1.roonLast = s.roonLast ∧
      (flacSearch s now).1.flacLast = (flacSearch s now).2 ∧
      _MB_MIN_INTERVAL ≤ (roonSearch s now).2 - s.roonLast ∧
      (roonSearch s now).1.flacLast = s.flacLast ∧
      (roonSearch s now).1.roonLast = (roonSearch s now).2 := by
  refine ⟨?_, rfl, rfl, ?_, rfl, rfl⟩
  · simp only [flacSearch, mbIssueTime, mbSleep]
    split
    · linarith
    · rename_i h
      push_neg at h
      linarith
  · simp only [roonSearch, mbIssueTime, mbSleep]
    split
    · linarith
    · rename_i h
      push_neg at h
      linarith

/-! ## C8 — bad root path handling -/

/-- C8 (counterexample): the claim that a start request with a non-existent
root path "is rejected synchronously before any job starts, and no job
progress record is created" fails: the route only validates that the path is
non-blank. With the job idle, starting with the (non-existent) path
`"/nope"` is accepted, a fresh progress record in status `starting` is
created, and it is the asynchronous job that later transitions the record to
status `error`. -/
theorem c8_counterexample :
    flac_start_route "/nope" { reset_import_job "" none with status := .idle } true none
        = (.accepted, reset_import_job "/nope" none) ∧
      (reset_import_job "/nope" none).status = .starting ∧
      (run_import_path_check false "/nope" (reset_import_job "/nope" none)).status
        = .error := by
  refine ⟨?_, rfl, rfl⟩
  rfl

/-- C8 (amended): a blank root path is the only start-time path validation:
any non-blank root path is accepted whenever no job is running (and the
collection check passes), a fresh progress record is created, and if the path
is not a directory the job itself transitions that record asynchronously to
status `error`, appending a descriptive message. -/
theorem c8_bad_path_async_error (path : String) (cur : JobState) (cid : Option Nat)
    (hp : (pyStrip path) ≠ "") (hr : cur.status ≠ .running) :
    flac_start_route path cur true cid = (.accepted, reset_import_job (pyStrip path) cid) ∧
      (run_import_path_check false (pyStrip path) (reset_import_job (pyStrip path) cid)).status
        = .error ∧
      (run_import_path_check false (pyStrip path) (reset_import_job (pyStrip path) cid)).errorList
        = ["Directory not found or not accessible: " ++ (pyStrip path)] := by
  refine ⟨?_, rfl, rfl⟩
  simp [flac_start_route, hp, hr]

/-- C8 (witness): concrete run of `c8_bad_path_async_error` on the path
`"/nope"` with an idle job. -/
theorem c8_witness :
    flac_start_route "/nope" { reset_import_job "" none with status := .idle } true none
        = (.accepted, reset_import_job (pyStrip "/nope") none) ∧
      (run_import_path_check false (pyStrip "/nope") (reset_import_job (pyStrip "/nope") none)).status
        = .error ∧
      (run_import_path_check false (pyStrip "/nope") (reset_import_job (pyStrip "/nope") none)).errorList
        = ["Directory not found or not accessible: " ++ (pyStrip "/nope")] :=
  c8_bad_path_async_error "/nope" { reset_import_job "" none with status := .idle } none
    (by decide) (by decide)

/-! ## C10 — conflict iff running -/

/-- C10 (counterexample): the claim "a start request is rejected with a
conflict if and only if the job kind's status is exactly `running`" fails on
the filesystem-import route: the blank-path check precedes the conflict
check, so a blank-path request made while the job IS running is rejected with
400 bad request, not 409 conflict. -/
theorem c10_counterexample :
    (flac_start_route "" { reset_import_job "x" none with status := .running } true none).1
        = .badRequest ∧
      ({ reset_import_job "x" none with status := .running } : JobState).status
        = .running ∧
      StartResp.badRequest ≠ StartResp.conflict := by
  refine ⟨rfl, rfl, by decide⟩

/-- C10 (amended): for start requests that pass input validation (non-blank
root path, and a valid or absent collection), the filesystem-import route
rejects with conflict exactly when the status is `running`, and in every
other status — `starting` included — it accepts and fully replaces the
progress record with a fresh `starting` record; the single-album enrichment
route has no prior validation, so its conflict-iff-running equivalence holds
unconditionally. -/
theorem c10_conflict_iff_running (path : String) (cur : JobState) (cid : Option Nat)
    (hp : (pyStrip path) ≠ "") :
    ((flac_start_route path cur true cid).1 = .conflict ↔ cur.status = .running) ∧
      (cur.status ≠ .running →
        flac_start_route path cur true cid = (.accepted, reset_import_job (pyStrip path) cid)) ∧
      ∀ st : JobStatus,
        (enrich_start_route st = .conflict ↔ st = .running) ∧
          (st ≠ .running → enrich_start_route st = .accepted) := by
  refine ⟨?_, ?_, ?_⟩
  · constructor
    · intro h
      by_contra hr
      simp [flac_start_route, hp, hr] at h
    · intro hr
      simp [flac_start_route, hp, hr]
  · intro hr
    simp [flac_start_route, hp, hr]
  · intro st
    constructor
    · constructor
      · intro h
        by_contra hr
        simp [enrich_start_route, hr] at h
      · intro hr
        simp [enrich_start_route, hr]
    · intro hr
      simp [enrich_start_route, hr]

/-- C10 (witness): concrete run of `c10_conflict_iff_running` with a
`starting` progress record — the new request is accepted and the record is
replaced wholesale. -/
theorem c10_witness :
    ((flac_start_route "/m" (reset_import_job "/old" (some 4)) true (some 9)).1 = .conflict
        ↔ (reset_import_job "/old" (some 4)).status = .running) ∧
      ((reset_import_job "/old" (some 4)).status ≠ .running →
        flac_start_route "/m" (reset_import_job "/old" (some 4)) true (some 9)
          = (.accepted, reset_import_job (pyStrip "/m") (some 9))) ∧
      ∀ st : JobStatus,
        (enrich_start_route st = .conflict ↔ st = .running) ∧
          (st ≠ .running → enrich_start_route st = .accepted) :=
  c10_conflict_iff_running "/m" (reset_import_job "/old" (some 4)) (some 9) (by decide)

/-! ## C1 — upsert fill-once semantics -/

/-- C1 (counterexample): the claim that release_year/record_label/art_path
"are assigned only when the stored field is currently null: if any of these
fields is already non-null, the import pass leaves its value unchanged" fails:
a stored `release_year` of `0` is non-null, yet the guard
`if data["release_year"] and not existing.release_year` treats it as absent
and overwrites it with the unit's year. (A year of `0` is producible by
the importer itself: a `"0000"` date tag parses to `0` on the create path.) -/
theorem c1_counterexample :
    (⟨7, "A", "B", some 0, none, none, ["old"]⟩ : AlbumRow).release_year ≠ none ∧
      (flac_update_existing [] 1 ⟨7, "A", "B", some 0, none, none, ["old"]⟩
          ⟨"A", "B", some 1999, none, ["t1"], none⟩).1.release_year = some 1999 ∧
      (some 1999 : Option Int) ≠ some 0 := by
  refine ⟨by decide, rfl, by decide⟩

/-- C1 (amended): on an import upsert that matches an existing album, the
stored track list is replaced wholesale by the unit's tracks, and
release_year, record_label and art_path are assigned only when the stored
field is currently falsy in Python's sense (null, `0`, or the empty string):
a truthy stored value is never overwritten, and a falsy stored field is
filled exactly when the incoming value is truthy. The external-library importer
behaves the same for tracks and art. -/
theorem c1_fill_once_truthy (labels : List RecordLabel) (nid : Nat)
    (ex : AlbumRow) (d : UnitData) :
    (flac_update_existing labels nid ex d).1.tracks = d.tracks ∧
      (intTruthy ex.release_year = true →
        (flac_update_existing labels nid ex d).1.release_year = ex.release_year) ∧
      (natTruthy ex.record_label_id = true →
        (flac_update_existing labels nid ex d).1.record_label_id = ex.record_label_id) ∧
      (strTruthy ex.art_path = true →
        (flac_update_existing labels nid ex d).1.art_path = ex.art_path) ∧
      (intTruthy ex.release_year = false → intTruthy d.release_year = true →
        (flac_update_existing labels nid ex d).1.release_year = d.release_year) ∧
      ∀ (tracks : List String) (ib : Option (List Nat)),
        (roon_update_existing ex tracks ib).tracks = tracks ∧
          (strTruthy ex.art_path = true →
            (roon_update_existing ex tracks ib).art_path = ex.art_path) := by
  refine ⟨?_, ?_, ?_, ?_, ?_, ?_⟩
  · simp only [flac_update_existing]
    split_ifs <;> rfl
  · intro hy
    simp only [flac_update_existing]
    split_ifs <;> simp_all
  · intro hl
    simp only [flac_update_existing]
    split_ifs <;> simp_all
  · intro ha
    simp only [flac_update_existing]
    split_ifs <;> simp_all
  · intro hy hd
    simp only [flac_update_existing]
    split_ifs <;> simp_all
  · intro tracks ib
    constructor
    · simp only [roon_update_existing]
      split_ifs <;> rfl
    · intro ha
      simp only [roon_update_existing]
      split_ifs <;> simp_all

/-- C1 (witness): concrete run of `c1_fill_once_truthy` — with every stored
field truthy, the upsert replaces the tracks and leaves year, label and art
alone. -/
theorem c1_witness :
    (flac_update_existing [] 3
        ⟨7, "A", "B", some 1984, some 2, some "7.jpg", ["old"]⟩
        ⟨"A", "B", some 1999, some "EMI", ["t1", "t2"], some [1]⟩).1.tracks
      = ["t1", "t2"] ∧
      (flac_update_existing [] 3
          ⟨7, "A", "B", some 1984, some 2, some "7.jpg", ["old"]⟩
          ⟨"A", "B", some 1999, some "EMI", ["t1", "t2"], some [1]⟩).1.release_year
        = some 1984 ∧
      (flac_update_existing [] 3
          ⟨7, "A", "B", some 1984, some 2, some "7.jpg", ["old"]⟩
          ⟨"A", "B", some 1999, some "EMI", ["t1", "t2"], some [1]⟩).1.record_label_id
        = some 2 ∧
      (flac_update_existing [] 3
          ⟨7, "A", "B", some 1984, some 2, some "7.jpg", ["old"]⟩
          ⟨"A", "B", some 1999, some "EMI", ["t1", "t2"], some [1]⟩).1.art_path
        = some "7.jpg" := by
  have h := c1_fill_once_truthy [] 3
    ⟨7, "A", "B", some 1984, some 2, some "7.jpg", ["old"]⟩
    ⟨"A", "B", some 1999, some "EMI", ["t1", "t2"], some [1]⟩
  exact ⟨h.1, h.2.1 (by decide), h.2.2.1 (by decide), h.2.2.2.1 (by decide)⟩

/-! ## C9 — merge functions: existing entries preserved, merge idempotent -/

/-- When every key of `n` is already seen, the append loop adds nothing. -/
theorem mergeKept_nil_of_subset {α κ : Type} [DecidableEq κ] (key : α → κ) :
    ∀ (n : List α) (seen : List κ), (∀ x ∈ n, key x ∈ seen) → mergeKept key seen n = []
  | [], _, _ => rfl
  | x :: rest, seen, h => by
    simp only [mergeKept]
    rw [if_pos (h x (List.mem_cons_self x rest))]
    exact mergeKept_nil_of_subset key rest seen fun y hy => h y (List.mem_cons_of_mem x hy)

/-- After the append loop, every key of `n` is either in `seen` or among the
keys of the appended entries. -/
theorem mergeKept_key_mem {α κ : Type} [DecidableEq κ] (key : α → κ) :
    ∀ (n : List α) (seen : List κ) (x : α), x ∈ n →
      key x ∈ seen ∨ key x ∈ (mergeKept key seen n).map key
  | [], _, x, hx => absurd hx (List.not_mem_nil x)
  | y :: rest, seen, x, hx => by
    simp only [mergeKept]
    by_cases hy : key y ∈ seen
    · rw [if_pos hy]
      rcases List.mem_cons.mp hx with h | h
      · exact Or.inl (h ▸ hy)
      · exact mergeKept_key_mem key rest seen x h
    · rw [if_neg hy]
      rcases List.mem_cons.mp hx with h | h
      · subst h
        right
        simp
      · rcases mergeKept_key_mem key rest (key y :: seen) x h with hmem | hmem
        · rcases List.mem_cons.mp hmem with h2 | h2
          · right
            simp [h2]
          · exact Or.inl h2
        · right
          simp [hmem]

/-- Re-running the append loop against the merged list's keys adds nothing. -/
theorem mergeKept_idem {α κ : Type} [DecidableEq κ] (key : α → κ) (e n : List α) :
    mergeKept key ((e ++ mergeKept key (e.map key) n).map key) n = [] := by
  apply mergeKept_nil_of_subset
  intro x hx
  rw [List.map_append, List.mem_append]
  exact mergeKept_key_mem key n (e.map key) x hx

/-- C9: each of the three merge functions returns a list whose prefix is
exactly `existing` (nothing removed, modified, or reordered — new entries are
only appended after it), and each merge is idempotent: merging the same new
payload into the merged output adds no further entries. -/
theorem c9_merge_prefix_idem (em nm : List MusEntry) (ep np : List PersEntry)
    (ed nd : List DetEntry) :
    (∃ t, _merge_musicians em nm = em ++ t) ∧
      _merge_musicians (_merge_musicians em nm) nm = _merge_musicians em nm ∧
      (∃ t, _merge_personnel ep np = ep ++ t) ∧
      _merge_personnel (_merge_personnel ep np) np = _merge_personnel ep np ∧
      (∃ t, _merge_details ed nd = ed ++ t) ∧
      _merge_details (_merge_details ed nd) nd = _merge_details ed nd := by
  refine ⟨⟨_, rfl⟩, ?_, ⟨_, rfl⟩, ?_, ⟨_, rfl⟩, ?_⟩
  · simp only [_merge_musicians]
    rw [mergeKept_idem, List.append_nil]
  · simp only [_merge_personnel]
    rw [mergeKept_idem, List.append_nil]
  · simp only [_merge_details]
    rw [mergeKept_idem, List.append_nil]

/-! ## C7 — bounded error log -/

/-- Folding one more message through the bounded append. -/
theorem errLog_append_one (msgs : List String) (m : String) :
    errLog (msgs ++ [m]) = trimAppend (errLog msgs) m := by
  simp [errLog, List.foldl_append]

/-- The bounded error log equals the suffix of the last (at most) 50 messages. -/
theorem errLog_eq_drop (msgs : List String) :
    errLog msgs = msgs.drop (msgs.length - 50) := by
  induction msgs using List.reverseRecOn with
  | nil => rfl
  | append_singleton ms m ih =>
    rw [errLog_append_one, ih]
    by_cases hL : 50 ≤ ms.length
    · have hlen : (ms.drop (ms.length - 50)).length = 50 := by
        rw [List.length_drop]
        omega
      rw [trimAppend, if_pos (by omega), hlen]
      simp only [List.drop_drop]
      have h1 : ms.length - 50 + (50 - 49) = ms.length - 49 := by omega
      rw [h1]
      have h2 : (ms ++ [m]).length - 50 = ms.length - 49 := by
        simp only [List.length_append, List.length_singleton]
        omega
      rw [h2, List.drop_append_of_le_length (by omega)]
    · have h0 : ms.length - 50 = 0 := by omega
      have h1 : (ms ++ [m]).length - 50 = 0 := by
        simp only [List.length_append, List.length_singleton]
        omega
      rw [h0, h1, List.drop_zero, List.drop_zero, trimAppend, if_neg (by omega)]

/-- With no cancellation, the job loop folds the unit bodies over the whole
list and finishes in status `done`. -/
theorem runUnits_none (j : JobState) :
    ∀ us : List UnitOutcome,
      runUnits none j us = { List.foldl processUnit j us with status := .done }
  | [] => rfl
  | u :: rest => by
    simp only [runUnits, cancelObserved, Bool.false_eq_true, if_false, List.foldl_cons]
    exact runUnits_none (processUnit j u) rest

/-- Folding errored units through the loop body is folding their messages
through the bounded append. -/
theorem foldl_errorList (j : JobState) :
    ∀ msgs : List String,
      (List.foldl processUnit j (msgs.map UnitOutcome.erroredUnit)).errorList
        = List.foldl trimAppend j.errorList msgs
  | [] => rfl
  | m :: rest => by
    simp only [List.map_cons, List.foldl_cons]
    rw [foldl_errorList (processUnit j (UnitOutcome.erroredUnit m)) rest]
    rfl

/-- C7: a job's error-message list never exceeds 50 entries; after `n ≥ 50`
per-unit failures it holds exactly 50 entries — the messages of the 50 most
recent failures in order (the suffix of the message sequence) — and a full import
run over errored units carries exactly this log. -/
theorem c7_bounded_error_log (msgs : List String) :
    (errLog msgs).length ≤ 50 ∧
      (50 ≤ msgs.length →
        errLog msgs = msgs.drop (msgs.length - 50) ∧ (errLog msgs).length = 50) ∧
      ∀ (rp : String) (cid : Option Nat),
        (runUnits none (startedJob rp cid msgs.length)
            (msgs.map UnitOutcome.erroredUnit)).errorList = errLog msgs := by
  have hdrop := errLog_eq_drop msgs
  have hlen : (errLog msgs).length = msgs.length - (msgs.length - 50) := by
    rw [hdrop, List.length_drop]
  refine ⟨by omega, fun h => ⟨hdrop, by omega⟩, ?_⟩
  intro rp cid
  rw [runUnits_none]
  exact foldl_errorList (startedJob rp cid msgs.length) msgs

/-- C7 (witness): sixty failures leave exactly the most recent fifty
messages. -/
theorem c7_witness :
    (errLog (List.replicate 60 "e")).length ≤ 50 ∧
      errLog (List.replicate 60 "e")
        = (List.replicate 60 "e").drop ((List.replicate 60 "e").length - 50) ∧
      (errLog (List.replicate 60 "e")).length = 50 :=
  ⟨(c7_bounded_error_log (List.replicate 60 "e")).1,
   ((c7_bounded_error_log (List.replicate 60 "e")).2.1 (by simp)).1,
   ((c7_bounded_error_log (List.replicate 60 "e")).2.1 (by simp)).2⟩

/-! ## C6 — cooperative cancellation at unit boundaries -/

/-- Every unit body bumps `done` by one (in the `finally` block). -/
theorem processUnit_done (j : JobState) (u : UnitOutcome) :
    (processUnit j u).done = j.done + 1 := by
  cases u <;> rfl

/-- Folding the loop body over units advances `done` by their count. -/
theorem foldl_done (j : JobState) :
    ∀ us : List UnitOutcome, (List.foldl processUnit j us).done = j.done + us.length
  | [] => rfl
  | u :: rest => by
    simp only [List.foldl_cons, List.length_cons]
    rw [foldl_done (processUnit j u) rest, processUnit_done]
    omega

/-- When the cancel flag becomes visible after `c` completed units (counting
from `j.done`), the loop runs exactly the first `c - j.done` unit bodies and
stops with status `cancelled`, leaving the rest of the state as the fold of
those bodies produced it. -/
theorem runUnits_cancel (c : Nat) :
    ∀ (us : List UnitOutcome) (j : JobState), j.done ≤ c → c - j.done < us.length →
      runUnits (some c) j us
        = { List.foldl processUnit j (us.take (c - j.done)) with status := .cancelled }
  | [], _, _, h2 => absurd h2 (by simp)
  | u :: rest, j, h1, h2 => by
    by_cases hc : c ≤ j.done
    · have hobs : cancelObserved (some c) j.done = true := by
        simp [cancelObserved, hc]
      have hz : c - j.done = 0 := by omega
      rw [hz]
      simp [runUnits, hobs]
    · have hobs : cancelObserved (some c) j.done = false := by
        simp only [cancelObserved, decide_eq_false_iff_not]
        omega
      have hdone := processUnit_done j u
      have h1' : (processUnit j u).done ≤ c := by omega
      have h2' : c - (processUnit j u).done < rest.length := by
        simp only [List.length_cons] at h2
        omega
      have hrec := runUnits_cancel c rest (processUnit j u) h1' h2'
      simp only [runUnits, hobs, Bool.false_eq_true, if_false]
      rw [hrec]
      have htake : (u :: rest).take (c - j.done)
          = u :: rest.take (c - (processUnit j u).done) := by
        rw [hdone]
        have hs : c - j.done = (c - (j.done + 1)) + 1 := by omega
        rw [hs, List.take_succ_cons]
      rw [htake, List.foldl_cons]

/-- C6: if the cancellation flag is set after the k-th unit of an N-unit
filesystem import completes (k < N), the job observes it at the next
top-of-loop check, finishes in status `cancelled` with `done = k`, and the
final state — counters, error log, and the list of applied per-unit database
effects — is exactly the state the first k unit bodies produced, with no
rollback. -/
theorem c6_cancelled_after_k (rp : String) (cid : Option Nat)
    (units : List UnitOutcome) (k : Nat) (hk : k < units.length) :
    runUnits (some k) (startedJob rp cid units.length) units
        = { List.foldl processUnit (startedJob rp cid units.length) (units.take k)
            with status := .cancelled } ∧
      (runUnits (some k) (startedJob rp cid units.length) units).done = k ∧
      (runUnits (some k) (startedJob rp cid units.length) units).applied
        = (List.foldl processUnit (startedJob rp cid units.length) (units.take k)).applied := by
  have hd : (startedJob rp cid units.length).done = 0 := rfl
  have h := runUnits_cancel k units (startedJob rp cid units.length)
    (Nat.zero_le k) (by simpa using hk)
  rw [hd, Nat.sub_zero] at h
  refine ⟨h, ?_, ?_⟩
  · rw [h]
    show (List.foldl processUnit (startedJob rp cid units.length) (units.take k)).done = k
    rw [foldl_done, hd, List.length_take]
    omega
  · rw [h]

/-- C6 (witness): a three-unit import cancelled after two completed units
ends `cancelled` with `done = 2` and exactly the first two units' effects. -/
theorem c6_witness :
    runUnits (some 2) (startedJob "/m" none 3)
        [UnitOutcome.importedUnit 1, UnitOutcome.updatedUnit 2, UnitOutcome.erroredUnit "x"]
        = { List.foldl processUnit (startedJob "/m" none 3)
            ([UnitOutcome.importedUnit 1, UnitOutcome.updatedUnit 2,
              UnitOutcome.erroredUnit "x"].take 2) with status := .cancelled } ∧
      (runUnits (some 2) (startedJob "/m" none 3)
          [UnitOutcome.importedUnit 1, UnitOutcome.updatedUnit 2,
            UnitOutcome.erroredUnit "x"]).done = 2 ∧
      (runUnits (some 2) (startedJob "/m" none 3)
          [UnitOutcome.importedUnit 1, UnitOutcome.updatedUnit 2,
            UnitOutcome.erroredUnit "x"]).applied
        = (List.foldl processUnit (startedJob "/m" none 3)
            ([UnitOutcome.importedUnit 1, UnitOutcome.updatedUnit 2,
              UnitOutcome.erroredUnit "x"].take 2)).applied :=
  c6_cancelled_after_k "/m" none
    [UnitOutcome.importedUnit 1, UnitOutcome.updatedUnit 2, UnitOutcome.erroredUnit "x"]
    2 (by decide)

end MusicDb
